import Mathlib

/-!
Verification of the token lifecycle manager in `src/auth.py`.

The Python module is single-threaded and synchronous, so it embeds as pure
functions with explicit state passing:

* `datetime` values are modelled as `Timestamp := Nat` (seconds).  The code
  only compares timestamps and adds second offsets to them, and
  `datetime.isoformat` / `datetime.fromisoformat` round-trip an instant
  exactly, so this preserves every comparison the code makes.  The literal
  `'2000-01-01'` parsed on line 110 of `auth.py` becomes the constant
  `sentinel2000`.
* The persisted file `.beatport_token.json` is modelled as an
  `Option TokenData` value (`none` = the file does not exist), threaded in
  and out of every operation that touches it.
* `requests.post` to the fixed token endpoint is modelled as an oracle
  `TokenEndpoint` mapping the form payload to an outcome: a transport error
  (the call raised) or a response with a status code and an optional parsed
  JSON body (`none` = `response.json()` raised).
* `response.raise_for_status()` raises exactly for status codes in
  `[400, 600)`.
-/

/-- Seconds-resolution model of Python `datetime` values. -/
abbrev Timestamp := Nat

/-- The value of `datetime.fromisoformat('2000-01-01')` as seconds since the
Unix epoch: the default used by `get_current_token` when the persisted record
has no `expires_at` field (line 110 of `auth.py`). -/
def sentinel2000 : Timestamp := 946684800

/-- JSON body returned by the token endpoint, as the code reads it: the three
fields accessed via `.get`, each possibly absent. -/
structure TokenJson where
  access_token : Option String
  refresh_token : Option String
  expires_in : Option Nat
deriving DecidableEq

/-- The persisted token record: the server body plus the locally computed
`expires_at` key added on lines 37 / 80 of `auth.py`. -/
structure TokenData where
  access_token : Option String
  refresh_token : Option String
  expires_in : Option Nat
  expires_at : Option Timestamp
deriving DecidableEq

/-- Outcome of one `requests.post` to the token endpoint. -/
inductive HttpOutcome where
  | transportError
  | response (status : Nat) (json : Option TokenJson)
deriving DecidableEq

/-- Form payload of a token-endpoint request (a `None` value models Python
passing `None` for a missing refresh token). -/
abbrev Payload := List (String × Option String)

/-- The network, as seen through `requests.post(TOKEN_URL, data=payload)`. -/
abbrev TokenEndpoint := Payload → HttpOutcome

/-- Payload built by `get_beatport_token` (lines 21-25 of `auth.py`). -/
def acquirePayload (username password : String) : Payload :=
  [("username", some username), ("password", some password),
   ("grant_type", some "password")]

/-- Payload built by `refresh_token` (lines 65-68 of `auth.py`). -/
def refreshPayload (refresh_token_str : Option String) : Payload :=
  [("refresh_token", refresh_token_str), ("grant_type", some "refresh_token")]

/-- `get_beatport_token` (lines 6-51 of `auth.py`): posts the password-grant
payload; on a non-error response with a JSON body it computes
`expires_at = now + expires_in` (defaulting `expires_in` to 3600), writes the
record to the token file when `save_to_file`, and returns it.  On any raised
exception (transport error, `raise_for_status`, body not JSON) it returns
`none` and the file is untouched.  Result: (returned value, new file state). -/
def get_beatport_token (oracle : TokenEndpoint) (now : Timestamp)
    (username password : String) (save_to_file : Bool)
    (fileState : Option TokenData) : Option TokenData × Option TokenData :=
  match oracle (acquirePayload username password) with
  | .transportError => (none, fileState)
  | .response status body =>
    if 400 ≤ status ∧ status < 600 then (none, fileState)
    else
      match body with
      | none => (none, fileState)
      | some token_data =>
        let expires_in := token_data.expires_in.getD 3600
        let record : TokenData :=
          ⟨token_data.access_token, token_data.refresh_token,
           token_data.expires_in, some (now + expires_in)⟩
        if save_to_file then (some record, some record)
        else (some record, fileState)

/-- `refresh_token` (lines 53-92 of `auth.py`): posts the refresh-grant
payload; identical success path to `get_beatport_token` except the file is
always written.  Result: (returned value, new file state). -/
def refresh_token (oracle : TokenEndpoint) (now : Timestamp)
    (refresh_token_str : Option String)
    (fileState : Option TokenData) : Option TokenData × Option TokenData :=
  match oracle (refreshPayload refresh_token_str) with
  | .transportError => (none, fileState)
  | .response status body =>
    if 400 ≤ status ∧ status < 600 then (none, fileState)
    else
      match body with
      | none => (none, fileState)
      | some token_data =>
        let expires_in := token_data.expires_in.getD 3600
        let record : TokenData :=
          ⟨token_data.access_token, token_data.refresh_token,
           token_data.expires_in, some (now + expires_in)⟩
        (some record, some record)

/-- Result of `get_current_token`: the returned access token, the file state
afterwards, and how many times `refresh_token` was invoked.  `refresh_token`
performs exactly one `requests.post` per invocation, so `refreshCalls` also
counts the network calls made. -/
structure GetTokenResult where
  ret : Option String
  fileState : Option TokenData
  refreshCalls : Nat
deriving DecidableEq

/-- `get_current_token` (lines 94-123 of `auth.py`): if the file is absent,
returns `none`; otherwise parses `expires_at` (defaulting a missing field to
the year-2000 sentinel) and either returns the cached `access_token` (not yet
expired) or calls `refresh_token` once and returns the new record's
`access_token` (expired), propagating a failed refresh as `none`. -/
def get_current_token (oracle : TokenEndpoint) (now : Timestamp)
    (fileState : Option TokenData) : GetTokenResult :=
  match fileState with
  | none => ⟨none, none, 0⟩
  | some token_data =>
    let expires_at := token_data.expires_at.getD sentinel2000
    if expires_at ≤ now then
      let r := refresh_token oracle now token_data.refresh_token (some token_data)
      match r.1 with
      | some new_token_data => ⟨new_token_data.access_token, r.2, 1⟩
      | none => ⟨none, r.2, 1⟩
    else ⟨token_data.access_token, some token_data, 0⟩

/-- Base URL of the f-string on line 143 of `auth.py`. -/
def BASE_URL : String := "https://api.beatport.com/v4/"

/-- `endpoint.lstrip('/')`: drop every leading `'/'`. -/
def lstripSlash (s : String) : String := ⟨s.data.dropWhile (fun c => c = '/')⟩

/-- One authenticated HTTP request as `requests.request` receives it on
lines 147-153 of `auth.py`. -/
structure ApiRequest where
  method : String
  url : String
  authorization : String
  params : Option (List (String × String))
  jsonBody : Option (List (String × String))
deriving DecidableEq

/-- Outcome of the authenticated `requests.request` call; the body is the
response JSON kept opaque as text. -/
inductive ApiOutcome where
  | transportError
  | response (status : Nat) (body : Option String)
deriving DecidableEq

/-- The network, as seen through `requests.request`. -/
abbrev ApiEndpoint := ApiRequest → ApiOutcome

/-- Result of `make_api_request`: returned JSON, file state, refresh calls
made by the inner `get_current_token`, and the list of authenticated HTTP
requests actually issued. -/
structure ApiCallResult where
  ret : Option String
  fileState : Option TokenData
  refreshCalls : Nat
  requests : List ApiRequest
deriving DecidableEq

/-- `make_api_request` (lines 125-160 of `auth.py`): obtains a token via
`get_current_token`; if the token is `None` or empty (`if not token:`) it
returns `none` without issuing any request.  Otherwise it issues exactly one
request to `BASE_URL ++ endpoint.lstrip('/')` with a Bearer header, the given
method and params, and a JSON body exactly for methods in
`['POST', 'PUT', 'PATCH']`; any raised exception yields `none`. -/
def make_api_request (oracle : TokenEndpoint) (api : ApiEndpoint)
    (now : Timestamp) (fileState : Option TokenData)
    (endpoint method : String) (params : Option (List (String × String)))
    (data : Option (List (String × String))) : ApiCallResult :=
  let g := get_current_token oracle now fileState
  match g.ret with
  | none => ⟨none, g.fileState, g.refreshCalls, []⟩
  | some token =>
    if token = "" then ⟨none, g.fileState, g.refreshCalls, []⟩
    else
      let url := BASE_URL ++ lstripSlash endpoint
      let req : ApiRequest :=
        ⟨method, url, "Bearer " ++ token, params,
         if method = "POST" ∨ method = "PUT" ∨ method = "PATCH" then data
         else none⟩
      match api req with
      | .transportError => ⟨none, g.fileState, g.refreshCalls, [req]⟩
      | .response status body =>
        if 400 ≤ status ∧ status < 600 then
          ⟨none, g.fileState, g.refreshCalls, [req]⟩
        else
          match body with
          | none => ⟨none, g.fileState, g.refreshCalls, [req]⟩
          | some j => ⟨some j, g.fileState, g.refreshCalls, [req]⟩


/-!
Model of the persistence layer for the round-trip claim: `json.dump` /
`json.load` (lines 41-42 and 106-107 of `auth.py`) are Python-stdlib calls,
embedded here at character level on the shape of record the code persists.
The string escaper follows `json.encoder.py_encode_basestring_ascii` (the
`ensure_ascii=True` default): `"`, `\`, and the five named control escapes,
`\uXXXX` (lowercase hex) for every other character outside printable ASCII
`0x20`-`0x7e`, and a UTF-16 surrogate pair for characters above `0xFFFF`.
The scanner follows `json.scanner.py_scanstring` with the default
`strict=True` (literal control characters below `0x20` are rejected); escaped
lone surrogates — which Python would decode to a string Lean's `Char` cannot
represent, and which the escaper never emits — are rejected rather than kept.
The record serializer writes the four fields of the persisted record in
insertion order with `json.dump`'s default `', '` / `': '` separators;
`expires_at`, an isoformat string in the file, is rendered through the
`Timestamp` model as its decimal digits in a JSON string.
-/

def hexDigitChar (n : Nat) : Char :=
  if n < 10 then Char.ofNat (48 + n) else Char.ofNat (87 + n)

def hexDigitVal (c : Char) : Option Nat :=
  if '0' ≤ c ∧ c ≤ '9' then some (c.toNat - 48)
  else if 'a' ≤ c ∧ c ≤ 'f' then some (c.toNat - 87)
  else if 'A' ≤ c ∧ c ≤ 'F' then some (c.toNat - 55)
  else none

def toHex4 (n : Nat) : List Char :=
  [hexDigitChar (n / 4096 % 16), hexDigitChar (n / 256 % 16),
   hexDigitChar (n / 16 % 16), hexDigitChar (n % 16)]

def parseHex4 : List Char → Option (Nat × List Char)
  | c3 :: c2 :: c1 :: c0 :: rest =>
    match hexDigitVal c3, hexDigitVal c2, hexDigitVal c1, hexDigitVal c0 with
    | some d3, some d2, some d1, some d0 =>
      some (d3 * 4096 + d2 * 256 + d1 * 16 + d0, rest)
    | _, _, _, _ => none
  | _ => none

def escCode (e : Char) : Option Char :=
  if e = '"' then some '"'
  else if e = '\\' then some '\\'
  else if e = '/' then some '/'
  else if e = 'b' then some '\x08'
  else if e = 'f' then some '\x0c'
  else if e = 'n' then some '\n'
  else if e = 'r' then some '\r'
  else if e = 't' then some '\t'
  else none

def escapeChar (c : Char) : List Char :=
  if c = '"' then ['\\', '"']
  else if c = '\\' then ['\\', '\\']
  else if c = '\x08' then ['\\', 'b']
  else if c = '\x0c' then ['\\', 'f']
  else if c = '\n' then ['\\', 'n']
  else if c = '\r' then ['\\', 'r']
  else if c = '\t' then ['\\', 't']
  else if 32 ≤ c.toNat ∧ c.toNat ≤ 126 then [c]
  else if c.toNat < 65536 then '\\' :: 'u' :: toHex4 c.toNat
  else
    '\\' :: 'u' :: toHex4 (55296 + (c.toNat - 65536) / 1024) ++
      '\\' :: 'u' :: toHex4 (56320 + (c.toNat - 65536) % 1024)

def escapeString : List Char → List Char
  | [] => []
  | c :: cs => escapeChar c ++ escapeString cs

def unescapeStep : List Char → Option (Char × List Char)
  | [] => none
  | c :: rest =>
    if c = '"' then none
    else if c = '\\' then
      match rest with
      | [] => none
      | e :: rest2 =>
        if e = 'u' then
          match parseHex4 rest2 with
          | none => none
          | some (n, rest3) =>
            if 55296 ≤ n ∧ n < 56320 then
              match rest3 with
              | b :: u :: rest4 =>
                if b = '\\' ∧ u = 'u' then
                  match parseHex4 rest4 with
                  | none => none
                  | some (m, rest5) =>
                    if 56320 ≤ m ∧ m < 57344 then
                      some (Char.ofNat (65536 + (n - 55296) * 1024 + (m - 56320)), rest5)
                    else none
                else none
              | _ => none
            else if 56320 ≤ n ∧ n < 57344 then none
            else some (Char.ofNat n, rest3)
        else
          match escCode e with
          | none => none
          | some c2 => some (c2, rest2)
    else if c.toNat < 32 then none
    else some (c, rest)

def scanStringAux : Nat → List Char → Option (List Char × List Char)
  | 0, _ => none
  | _ + 1, [] => none
  | fuel + 1, c :: rest =>
    if c = '"' then some ([], rest)
    else
      match unescapeStep (c :: rest) with
      | none => none
      | some (d, r) =>
        match scanStringAux fuel r with
        | none => none
        | some (s, u) => some (d :: s, u)

def scanString (l : List Char) : Option (List Char × List Char) :=
  scanStringAux l.length l

def isDigitChar (c : Char) : Bool := 48 ≤ c.toNat && c.toNat ≤ 57

/-- The character of a decimal digit value below 10. -/
def digitChar (d : Nat) : Char := Char.ofNat (48 + d)

/-- Decimal rendering of a natural number, most significant digit first. -/
def natChars (n : Nat) : List Char :=
  if n = 0 then ['0'] else (Nat.digits 10 n).reverse.map digitChar

/-- Read a leading run of decimal digits off the stream. -/
def parseNat (l : List Char) : Option (Nat × List Char) :=
  match l.takeWhile isDigitChar with
  | [] => none
  | ds => some (Nat.ofDigits 10 ((ds.map (fun c => c.toNat - 48)).reverse),
                l.dropWhile isDigitChar)

def expectLit : List Char → List Char → Option (List Char)
  | [], l => some l
  | _ :: _, [] => none
  | p :: ps, c :: cs => if p = c then expectLit ps cs else none

structure StoredRecord where
  access_token : String
  refresh_token : String
  expires_in : Nat
  expires_at : Nat
deriving DecidableEq

def litOpen : List Char := ("\x7b\"access_token\": \"").data
def litRefresh : List Char := (", \"refresh_token\": \"").data
def litExpIn : List Char := (", \"expires_in\": ").data
def litExpAt : List Char := (", \"expires_at\": \"").data
def litClose : List Char := ("\"\x7d").data

def dumpStored (r : StoredRecord) : List Char :=
  litOpen ++ (escapeString r.access_token.data ++ '"' ::
    (litRefresh ++ (escapeString r.refresh_token.data ++ '"' ::
      (litExpIn ++ (natChars r.expires_in ++
        (litExpAt ++ (natChars r.expires_at ++ litClose)))))))

def parseStored (l : List Char) : Option StoredRecord :=
  match expectLit litOpen l with
  | none => none
  | some l1 =>
    match scanString l1 with
    | none => none
    | some (a, l2) =>
      match expectLit litRefresh l2 with
      | none => none
      | some l3 =>
        match scanString l3 with
        | none => none
        | some (rt, l4) =>
          match expectLit litExpIn l4 with
          | none => none
          | some l5 =>
            match parseNat l5 with
            | none => none
            | some (ei, l6) =>
              match expectLit litExpAt l6 with
              | none => none
              | some l7 =>
                match parseNat l7 with
                | none => none
                | some (ea, l8) =>
                  match expectLit litClose l8 with
                  | none => none
                  | some l9 =>
                    match l9 with
                    | [] => some ⟨⟨a⟩, ⟨rt⟩, ei, ea⟩
                    | _ :: _ => none


/-- C1: for every persisted TokenRecord whose `expires_at` is at or before the
current time, `get_current_token` invokes `refresh_token` exactly once and
returns the `access_token` of the newly issued record (or `none` if the
refresh fails — including a refresh that succeeds but returns a body without
an `access_token`, since the code reads it with `.get`). -/
theorem c1_expired_refreshes_once (oracle : TokenEndpoint) (now e : Timestamp)
    (token_data : TokenData)
    (h1 : token_data.expires_at = some e) (h2 : e ≤ now) :
    (get_current_token oracle now (some token_data)).refreshCalls = 1 ∧
    (get_current_token oracle now (some token_data)).ret =
      (refresh_token oracle now token_data.refresh_token (some token_data)).1.bind
        TokenData.access_token := by
  unfold get_current_token
  simp only [h1, Option.getD_some, if_pos h2]
  cases hr : (refresh_token oracle now token_data.refresh_token (some token_data)).1 <;>
    simp [hr, Option.bind]

/-- C1 witness: record expired at 5, current time 10, refresh succeeding with
a fresh token. -/
theorem c1_expired_refreshes_once_witness :
    ((⟨some "old", some "r", some 60, some 5⟩ : TokenData).expires_at = some 5 ∧ 5 ≤ 10) ∧
    ((get_current_token (fun _ => .response 200 (some ⟨some "new", some "r2", some 60⟩)) 10
        (some ⟨some "old", some "r", some 60, some 5⟩)).refreshCalls = 1 ∧
     (get_current_token (fun _ => .response 200 (some ⟨some "new", some "r2", some 60⟩)) 10
        (some ⟨some "old", some "r", some 60, some 5⟩)).ret =
      (refresh_token (fun _ => .response 200 (some ⟨some "new", some "r2", some 60⟩)) 10
        (some "r") (some ⟨some "old", some "r", some 60, some 5⟩)).1.bind
        TokenData.access_token) :=
  ⟨⟨rfl, by decide⟩, c1_expired_refreshes_once _ 10 5 _ rfl (by decide)⟩

/-- C2: for every persisted TokenRecord whose `expires_at` is strictly after
the current time, `get_current_token` returns the cached `access_token`,
leaves the file untouched and makes zero `refresh_token` calls — and the
refresh call is the only statement in `get_current_token` that touches the
network, so zero refresh calls is zero network calls. -/
theorem c2_fresh_token_no_network (oracle : TokenEndpoint) (now e : Timestamp)
    (token_data : TokenData)
    (h1 : token_data.expires_at = some e) (h2 : now < e) :
    get_current_token oracle now (some token_data) =
      ⟨token_data.access_token, some token_data, 0⟩ := by
  unfold get_current_token
  simp [h1, Nat.not_le.mpr h2]

/-- C2 witness: record expiring at 99, current time 10. -/
theorem c2_fresh_token_no_network_witness :
    ((⟨some "tok", some "r", some 60, some 99⟩ : TokenData).expires_at = some 99 ∧ 10 < 99) ∧
    get_current_token (fun _ => .transportError) 10
        (some ⟨some "tok", some "r", some 60, some 99⟩) =
      ⟨some "tok", some ⟨some "tok", some "r", some 60, some 99⟩, 0⟩ :=
  ⟨⟨rfl, by decide⟩, c2_fresh_token_no_network _ 10 99 _ rfl (by decide)⟩

/-- C3: on every successful `get_beatport_token` or `refresh_token` call, the
returned and persisted record's `expires_at` equals the local time `now` at
issuance plus the server-reported `expires_in` — the server clock never
enters the computation. -/
theorem c3_expires_at_is_local (oracle : TokenEndpoint) (now : Timestamp)
    (username password : String) (rts : Option String) (fileState : Option TokenData)
    (status : Nat) (tj : TokenJson) (n : Nat)
    (hacq : oracle (acquirePayload username password) = .response status (some tj))
    (href : oracle (refreshPayload rts) = .response status (some tj))
    (hst : ¬ (400 ≤ status ∧ status < 600))
    (hn : tj.expires_in = some n) :
    (∃ td, get_beatport_token oracle now username password true fileState =
        (some td, some td) ∧ td.expires_at = some (now + n)) ∧
    (∃ td, refresh_token oracle now rts fileState = (some td, some td) ∧
        td.expires_at = some (now + n)) := by
  unfold get_beatport_token refresh_token
  rw [hacq, href]
  simp [hst, hn]

/-- C3 witness: a 200 response reporting `expires_in = 77`, local time 5. -/
theorem c3_expires_at_is_local_witness :
    ((fun _ => HttpOutcome.response 200 (some ⟨some "a", some "r", some 77⟩) : TokenEndpoint)
        (acquirePayload "u" "p") = .response 200 (some ⟨some "a", some "r", some 77⟩) ∧
     (fun _ => HttpOutcome.response 200 (some ⟨some "a", some "r", some 77⟩) : TokenEndpoint)
        (refreshPayload (some "r0")) = .response 200 (some ⟨some "a", some "r", some 77⟩) ∧
     ¬ (400 ≤ 200 ∧ 200 < 600) ∧
     (⟨some "a", some "r", some 77⟩ : TokenJson).expires_in = some 77) ∧
    ((∃ td, get_beatport_token (fun _ => .response 200 (some ⟨some "a", some "r", some 77⟩))
          5 "u" "p" true none = (some td, some td) ∧ td.expires_at = some (5 + 77)) ∧
     (∃ td, refresh_token (fun _ => .response 200 (some ⟨some "a", some "r", some 77⟩))
          5 (some "r0") none = (some td, some td) ∧ td.expires_at = some (5 + 77))) :=
  ⟨⟨rfl, rfl, by decide, rfl⟩,
   c3_expires_at_is_local _ 5 "u" "p" (some "r0") none 200 _ 77 rfl rfl (by decide) rfl⟩

/-- C9: when the server response omits `expires_in`, both token-issuing
operations default it to 3600 seconds, so the stored `expires_at` is
`now + 3600`. -/
theorem c9_expires_in_defaults_3600 (oracle : TokenEndpoint) (now : Timestamp)
    (username password : String) (rts : Option String) (fileState : Option TokenData)
    (status : Nat) (tj : TokenJson)
    (hacq : oracle (acquirePayload username password) = .response status (some tj))
    (href : oracle (refreshPayload rts) = .response status (some tj))
    (hst : ¬ (400 ≤ status ∧ status < 600))
    (hn : tj.expires_in = none) :
    (∃ td, get_beatport_token oracle now username password true fileState =
        (some td, some td) ∧ td.expires_at = some (now + 3600)) ∧
    (∃ td, refresh_token oracle now rts fileState = (some td, some td) ∧
        td.expires_at = some (now + 3600)) := by
  unfold get_beatport_token refresh_token
  rw [hacq, href]
  simp [hst, hn]

/-- C9 witness: a 200 response with no `expires_in`, local time 5. -/
theorem c9_expires_in_defaults_3600_witness :
    ((fun _ => HttpOutcome.response 200 (some ⟨some "a", some "r", none⟩) : TokenEndpoint)
        (acquirePayload "u" "p") = .response 200 (some ⟨some "a", some "r", none⟩) ∧
     (fun _ => HttpOutcome.response 200 (some ⟨some "a", some "r", none⟩) : TokenEndpoint)
        (refreshPayload (some "r0")) = .response 200 (some ⟨some "a", some "r", none⟩) ∧
     ¬ (400 ≤ 200 ∧ 200 < 600) ∧
     (⟨some "a", some "r", none⟩ : TokenJson).expires_in = none) ∧
    ((∃ td, get_beatport_token (fun _ => .response 200 (some ⟨some "a", some "r", none⟩))
          5 "u" "p" true none = (some td, some td) ∧ td.expires_at = some (5 + 3600)) ∧
     (∃ td, refresh_token (fun _ => .response 200 (some ⟨some "a", some "r", none⟩))
          5 (some "r0") none = (some td, some td) ∧ td.expires_at = some (5 + 3600))) :=
  ⟨⟨rfl, rfl, by decide, rfl⟩,
   c9_expires_in_defaults_3600 _ 5 "u" "p" (some "r0") none 200 _ rfl rfl (by decide) rfl⟩

/-- C6: a persisted record with no `expires_at` field is treated as expired —
the code substitutes the year-2000 sentinel, which is at or before any
current time from the year 2000 on — so `get_current_token` attempts a
refresh instead of returning the cached access token. -/
theorem c6_missing_expires_at_refreshes (oracle : TokenEndpoint) (now : Timestamp)
    (token_data : TokenData)
    (h1 : token_data.expires_at = none) (h2 : sentinel2000 ≤ now) :
    (get_current_token oracle now (some token_data)).refreshCalls = 1 ∧
    (get_current_token oracle now (some token_data)).ret =
      (refresh_token oracle now token_data.refresh_token (some token_data)).1.bind
        TokenData.access_token := by
  unfold get_current_token
  simp only [h1, Option.getD_none, if_pos h2]
  cases hr : (refresh_token oracle now token_data.refresh_token (some token_data)).1 <;>
    simp [hr, Option.bind]

/-- C6 witness: record with no `expires_at`, current time exactly the
year-2000 sentinel. -/
theorem c6_missing_expires_at_refreshes_witness :
    ((⟨some "tok", some "r", some 60, none⟩ : TokenData).expires_at = none ∧
      sentinel2000 ≤ 946684800) ∧
    ((get_current_token (fun _ => .transportError) 946684800
        (some ⟨some "tok", some "r", some 60, none⟩)).refreshCalls = 1 ∧
     (get_current_token (fun _ => .transportError) 946684800
        (some ⟨some "tok", some "r", some 60, none⟩)).ret =
      (refresh_token (fun _ => .transportError) 946684800 (some "r")
        (some ⟨some "tok", some "r", some 60, none⟩)).1.bind TokenData.access_token) :=
  ⟨⟨rfl, by decide⟩, c6_missing_expires_at_refreshes _ 946684800 _ rfl (by decide)⟩

/-- C4: when `get_current_token` yields no token, `make_api_request` returns
`none` and issues no authenticated HTTP request at all. -/
theorem c4_no_token_no_request (oracle : TokenEndpoint) (api : ApiEndpoint)
    (now : Timestamp) (fileState : Option TokenData) (endpoint method : String)
    (params data : Option (List (String × String)))
    (h : (get_current_token oracle now fileState).ret = none) :
    (make_api_request oracle api now fileState endpoint method params data).ret = none ∧
    (make_api_request oracle api now fileState endpoint method params data).requests
      = [] := by
  unfold make_api_request
  simp [h]

/-- C4 witness: no token file at all. -/
theorem c4_no_token_no_request_witness :
    (get_current_token (fun _ => .transportError) 0 none).ret = none ∧
    ((make_api_request (fun _ => .transportError) (fun _ => .transportError) 0 none
        "x" "GET" none none).ret = none ∧
     (make_api_request (fun _ => .transportError) (fun _ => .transportError) 0 none
        "x" "GET" none none).requests = []) :=
  ⟨rfl, c4_no_token_no_request _ _ 0 none "x" "GET" none none rfl⟩

/-- C10: when `get_current_token` yields an empty access-token string, the
`if not token:` guard treats it exactly like no token: `make_api_request`
returns `none` and issues no HTTP request. -/
theorem c10_empty_token_no_request (oracle : TokenEndpoint) (api : ApiEndpoint)
    (now : Timestamp) (fileState : Option TokenData) (endpoint method : String)
    (params data : Option (List (String × String)))
    (h : (get_current_token oracle now fileState).ret = some "") :
    (make_api_request oracle api now fileState endpoint method params data).ret = none ∧
    (make_api_request oracle api now fileState endpoint method params data).requests
      = [] := by
  unfold make_api_request
  simp [h]

/-- C10 witness: a still-valid cached record whose access token is the empty
string. -/
theorem c10_empty_token_no_request_witness :
    (get_current_token (fun _ => .transportError) 0
        (some ⟨some "", some "r", some 60, some 9⟩)).ret = some "" ∧
    ((make_api_request (fun _ => .transportError) (fun _ => .transportError) 0
        (some ⟨some "", some "r", some 60, some 9⟩) "x" "GET" none none).ret = none ∧
     (make_api_request (fun _ => .transportError) (fun _ => .transportError) 0
        (some ⟨some "", some "r", some 60, some 9⟩) "x" "GET" none none).requests = []) :=
  ⟨rfl, c10_empty_token_no_request _ _ 0 _ "x" "GET" none none rfl⟩

/-- C5 counterexample: a 300 status is not 2xx, yet `raise_for_status` only
raises for codes in `[400, 600)`, so `get_beatport_token` on a 300 response
that carries a JSON body returns a record and writes the token file — the
claim as stated (every non-2xx response yields a null result and no write)
is false. -/
theorem c5_non2xx_counterexample :
    ¬ (200 ≤ 300 ∧ 300 < 300) ∧
    (get_beatport_token (fun _ => .response 300 (some ⟨some "a", some "r", some 10⟩))
       0 "u" "p" true none).1 ≠ none ∧
    (get_beatport_token (fun _ => .response 300 (some ⟨some "a", some "r", some 10⟩))
       0 "u" "p" true none).2 ≠ none := by decide

/-- C5 (amended): for every `get_beatport_token` call whose token-endpoint
response status is 4xx or 5xx — the codes `raise_for_status` raises on, 401
included — the call returns `none` and the token file is untouched. -/
theorem c5_auth_error_no_write (oracle : TokenEndpoint) (now : Timestamp)
    (username password : String) (save_to_file : Bool) (fileState : Option TokenData)
    (status : Nat) (body : Option TokenJson)
    (h : oracle (acquirePayload username password) = .response status body)
    (h4 : 400 ≤ status) (h6 : status < 600) :
    get_beatport_token oracle now username password save_to_file fileState =
      (none, fileState) := by
  unfold get_beatport_token
  rw [h]
  simp [h4, h6]

/-- C5 witness: a 401 response against an existing persisted record. -/
theorem c5_auth_error_no_write_witness :
    ((fun _ => HttpOutcome.response 401 none : TokenEndpoint) (acquirePayload "u" "p") =
        .response 401 none ∧ 400 ≤ 401 ∧ 401 < 600) ∧
    get_beatport_token (fun _ => .response 401 none) 0 "u" "p" true
        (some ⟨some "old", some "r", some 60, some 5⟩) =
      (none, some ⟨some "old", some "r", some 60, some 5⟩) :=
  ⟨⟨rfl, by decide, by decide⟩,
   c5_auth_error_no_write _ 0 "u" "p" true _ 401 none rfl (by decide) (by decide)⟩

/-- C8 counterexample: for `endpoint = "/x"` the code strips the leading
slash, so the issued URL is `BASE_URL ++ "x"`, not the plain concatenation
`BASE_URL ++ "/x"` the claim states. -/
theorem c8_url_counterexample :
    ((make_api_request (fun _ => .transportError) (fun _ => .transportError) 0
        (some ⟨some "tok", some "r", some 3600, some 10⟩) "/x" "GET" none none).requests.map
      ApiRequest.url) ≠ [BASE_URL ++ "/x"] := by decide

/-- C8 (amended): with an available non-empty token, `make_api_request`
issues exactly one HTTP request, to `BASE_URL` concatenated with the endpoint
stripped of leading slashes, carrying an `Authorization: Bearer <token>`
header, the given method and query parameters, and the JSON body exactly when
the method is POST, PUT or PATCH. -/
theorem c8_request_shape (oracle : TokenEndpoint) (api : ApiEndpoint)
    (now : Timestamp) (fileState : Option TokenData) (endpoint method : String)
    (params data : Option (List (String × String))) (t : String)
    (h : (get_current_token oracle now fileState).ret = some t) (ht : t ≠ "") :
    (make_api_request oracle api now fileState endpoint method params data).requests =
      [⟨method, BASE_URL ++ lstripSlash endpoint, "Bearer " ++ t, params,
        if method = "POST" ∨ method = "PUT" ∨ method = "PATCH" then data else none⟩] := by
  unfold make_api_request
  simp only [h]
  rw [if_neg ht]
  cases hapi : api ⟨method, BASE_URL ++ lstripSlash endpoint, "Bearer " ++ t, params,
      if method = "POST" ∨ method = "PUT" ∨ method = "PATCH" then data else none⟩ with
  | transportError => simp [hapi]
  | response status body =>
    simp only [hapi]
    split
    · rfl
    · cases body <;> rfl

/-- C8 witness: a POST with params and body against a valid cached token. -/
theorem c8_request_shape_witness :
    ((get_current_token (fun _ => .transportError) 0
        (some ⟨some "tok", some "r", some 3600, some 10⟩)).ret = some "tok" ∧
      "tok" ≠ "") ∧
    (make_api_request (fun _ => .transportError) (fun _ => .transportError) 0
        (some ⟨some "tok", some "r", some 3600, some 10⟩) "/my/playlists" "POST"
        (some [("page", "1")]) (some [("name", "mix")])).requests =
      [⟨"POST", BASE_URL ++ lstripSlash "/my/playlists", "Bearer " ++ "tok",
        some [("page", "1")],
        if "POST" = "POST" ∨ "POST" = "PUT" ∨ "POST" = "PATCH"
        then some [("name", "mix")] else none⟩] :=
  ⟨⟨rfl, by decide⟩,
   c8_request_shape _ _ 0 _ "/my/playlists" "POST" (some [("page", "1")])
     (some [("name", "mix")]) "tok" rfl (by decide)⟩

theorem hexDigitVal_hexDigitChar (d : Nat) (hd : d < 16) :
    hexDigitVal (hexDigitChar d) = some d := by
  interval_cases d <;> decide

theorem parseHex4_toHex4 (n : Nat) (hn : n < 65536) (rest : List Char) :
    parseHex4 (toHex4 n ++ rest) = some (n, rest) := by
  have h3 : n / 4096 % 16 < 16 := Nat.mod_lt _ (by omega)
  have h2 : n / 256 % 16 < 16 := Nat.mod_lt _ (by omega)
  have h1 : n / 16 % 16 < 16 := Nat.mod_lt _ (by omega)
  have h0 : n % 16 < 16 := Nat.mod_lt _ (by omega)
  simp only [toHex4, List.cons_append, List.nil_append, parseHex4,
    hexDigitVal_hexDigitChar _ h3, hexDigitVal_hexDigitChar _ h2,
    hexDigitVal_hexDigitChar _ h1, hexDigitVal_hexDigitChar _ h0]
  congr 1
  congr 1
  omega

theorem char_toNat_valid (c : Char) :
    c.toNat < 55296 ∨ (57343 < c.toNat ∧ c.toNat < 1114112) :=
  c.valid

theorem unescapeStep_escapeChar (c : Char) (t : List Char) :
    unescapeStep (escapeChar c ++ t) = some (c, t) := by
  unfold escapeChar
  by_cases h1 : c = '"'
  · simp [h1, unescapeStep, escCode]
  by_cases h2 : c = '\\'
  · simp [h1, h2, unescapeStep, escCode]
  by_cases h3 : c = '\x08'
  · simp [h1, h2, h3, unescapeStep, escCode]
  by_cases h4 : c = '\x0c'
  · simp [h1, h2, h3, h4, unescapeStep, escCode]
  by_cases h5 : c = '\n'
  · simp [h1, h2, h3, h4, h5, unescapeStep, escCode]
  by_cases h6 : c = '\r'
  · simp [h1, h2, h3, h4, h5, h6, unescapeStep, escCode]
  by_cases h7 : c = '\t'
  · simp [h1, h2, h3, h4, h5, h6, h7, unescapeStep, escCode]
  by_cases h8 : 32 ≤ c.toNat ∧ c.toNat ≤ 126
  · simp only [if_neg h1, if_neg h2, if_neg h3, if_neg h4, if_neg h5, if_neg h6,
      if_neg h7, if_pos h8, List.cons_append, List.nil_append]
    simp [unescapeStep, h1, h2, Nat.not_lt.mpr h8.1]
  by_cases h9 : c.toNat < 65536
  · have hv := char_toNat_valid c
    simp only [if_neg h1, if_neg h2, if_neg h3, if_neg h4, if_neg h5, if_neg h6,
      if_neg h7, if_neg h8, if_pos h9, List.cons_append]
    have hs1 : ¬ (55296 ≤ c.toNat ∧ c.toNat < 56320) := by omega
    have hs2 : ¬ (56320 ≤ c.toNat ∧ c.toNat < 57344) := by omega
    simp [unescapeStep, parseHex4_toHex4 c.toNat h9 t, hs1, hs2, Char.ofNat_toNat]
  · have hv := char_toNat_valid c
    have h10 : ¬ c.toNat < 65536 := h9
    have hlt : c.toNat < 1114112 := by omega
    simp only [if_neg h1, if_neg h2, if_neg h3, if_neg h4, if_neg h5, if_neg h6,
      if_neg h7, if_neg h8, if_neg h9, List.cons_append, List.append_assoc]
    have hhi : 55296 + (c.toNat - 65536) / 1024 < 65536 := by omega
    have hlo : 56320 + (c.toNat - 65536) % 1024 < 65536 := by
      have := Nat.mod_lt (c.toNat - 65536) (show 0 < 1024 by omega)
      omega
    have hs1 : 55296 ≤ 55296 + (c.toNat - 65536) / 1024 ∧
        55296 + (c.toNat - 65536) / 1024 < 56320 := by
      have : (c.toNat - 65536) / 1024 < 1024 := Nat.div_lt_of_lt_mul (by omega)
      omega
    have hs2 : 56320 ≤ 56320 + (c.toNat - 65536) % 1024 ∧
        56320 + (c.toNat - 65536) % 1024 < 57344 := by
      have := Nat.mod_lt (c.toNat - 65536) (show 0 < 1024 by omega)
      omega
    simp only [unescapeStep, parseHex4_toHex4 _ hhi, parseHex4_toHex4 _ hlo, hs1, hs2,
      List.cons_append, and_self, if_true, if_pos, reduceIte]
    simp only [show (55296 + (c.toNat - 65536) / 1024 - 55296) = (c.toNat - 65536) / 1024
        from by omega,
      show (56320 + (c.toNat - 65536) % 1024 - 56320) = (c.toNat - 65536) % 1024 from by omega]
    have harith : 65536 + (c.toNat - 65536) / 1024 * 1024 + (c.toNat - 65536) % 1024 =
        c.toNat := by omega
    simp [harith, Char.ofNat_toNat]

theorem escapeChar_ne_nil (c : Char) : escapeChar c ≠ [] := by
  intro h
  have h2 := unescapeStep_escapeChar c []
  rw [h] at h2
  simp [unescapeStep] at h2

theorem escapeChar_head_ne_quote (c hd : Char) (tl : List Char)
    (h : escapeChar c = hd :: tl) : hd ≠ '"' := by
  intro hq
  have h2 := unescapeStep_escapeChar c []
  rw [h, hq, List.cons_append] at h2
  simp [unescapeStep] at h2


theorem escapeString_length_ge (s : List Char) : s.length ≤ (escapeString s).length := by
  induction s with
  | nil => simp [escapeString]
  | cons c cs ih =>
    have h1 : 1 ≤ (escapeChar c).length := by
      cases hE : escapeChar c with
      | nil => exact absurd hE (escapeChar_ne_nil c)
      | cons x xs => simp
    simp only [escapeString, List.length_append, List.length_cons]
    omega

theorem scanStringAux_escapeString (s : List Char) : ∀ (fuel : Nat) (rest : List Char),
    s.length < fuel → scanStringAux fuel (escapeString s ++ '"' :: rest) = some (s, rest) := by
  induction s with
  | nil =>
    intro fuel rest hf
    match fuel with
    | f + 1 =>
      rw [escapeString, List.nil_append]
      simp [scanStringAux]
  | cons c cs ih =>
    intro fuel rest hf
    match fuel with
    | f + 1 =>
      cases hE : escapeChar c with
      | nil => exact absurd hE (escapeChar_ne_nil c)
      | cons hd tl =>
        have hhd := escapeChar_head_ne_quote c hd tl hE
        have hstream : escapeString (c :: cs) ++ '"' :: rest =
            hd :: (tl ++ (escapeString cs ++ '"' :: rest)) := by
          rw [escapeString, hE]
          simp [List.append_assoc]
        have hstep : unescapeStep (hd :: (tl ++ (escapeString cs ++ '"' :: rest))) =
            some (c, escapeString cs ++ '"' :: rest) := by
          have h3 := unescapeStep_escapeChar c (escapeString cs ++ '"' :: rest)
          rwa [hE, List.cons_append] at h3
        rw [hstream]
        simp only [scanStringAux, if_neg hhd, hstep]
        rw [ih f rest (by simp at hf; omega)]

theorem scanString_escapeString (s rest : List Char) :
    scanString (escapeString s ++ '"' :: rest) = some (s, rest) := by
  have h1 := escapeString_length_ge s
  apply scanStringAux_escapeString
  simp only [List.length_append, List.length_cons]
  omega

theorem toNat_digitChar (d : Nat) (h : d < 10) : (digitChar d).toNat = 48 + d := by
  interval_cases d <;> decide

theorem isDigitChar_digitChar (d : Nat) (h : d < 10) : isDigitChar (digitChar d) = true := by
  interval_cases d <;> decide

theorem natChars_all_digits (n : Nat) : ∀ c ∈ natChars n, isDigitChar c = true := by
  intro c hc
  unfold natChars at hc
  split at hc
  · simp at hc
    rw [hc]
    decide
  · simp only [List.mem_map, List.mem_reverse] at hc
    obtain ⟨d, hd, rfl⟩ := hc
    exact isDigitChar_digitChar d (Nat.digits_lt_base (by omega) hd)

theorem natChars_ne_nil (n : Nat) : natChars n ≠ [] := by
  unfold natChars
  split
  · simp
  · rename_i h0
    simp [Nat.digits_ne_nil_iff_ne_zero.mpr h0]

theorem takeWhile_append_all {p : Char → Bool} {a b : List Char}
    (h : ∀ c ∈ a, p c = true) (hb : b.takeWhile p = []) :
    (a ++ b).takeWhile p = a := by
  induction a with
  | nil =>
    rw [List.nil_append]
    exact hb
  | cons x xs ih =>
    rw [List.cons_append, List.takeWhile_cons, if_pos (h x (by simp))]
    rw [ih (fun c hc => h c (by simp [hc]))]

theorem dropWhile_append_all {p : Char → Bool} {a b : List Char}
    (h : ∀ c ∈ a, p c = true) (hb : b.dropWhile p = b) :
    (a ++ b).dropWhile p = b := by
  induction a with
  | nil =>
    rw [List.nil_append]
    exact hb
  | cons x xs ih =>
    rw [List.cons_append, List.dropWhile_cons, if_pos (h x (by simp))]
    exact ih (fun c hc => h c (by simp [hc]))

theorem ofDigits_natChars (n : Nat) :
    Nat.ofDigits 10 (((natChars n).map (fun c => c.toNat - 48)).reverse) = n := by
  unfold natChars
  split
  · simp_all
  · have hmap : (Nat.digits 10 n).reverse.map ((fun c => c.toNat - 48) ∘ digitChar) =
        (Nat.digits 10 n).reverse.map id :=
      List.map_congr_left (fun d hd => by
        have hlt : d < 10 := Nat.digits_lt_base (by omega) (List.mem_reverse.mp hd)
        simp only [Function.comp_apply, id_eq, toNat_digitChar d hlt]
        omega)
    rw [List.map_map, hmap, List.map_id, List.reverse_reverse, Nat.ofDigits_digits]

theorem parseNat_natChars (n : Nat) (rest : List Char)
    (h1 : rest.takeWhile isDigitChar = []) (h2 : rest.dropWhile isDigitChar = rest) :
    parseNat (natChars n ++ rest) = some (n, rest) := by
  unfold parseNat
  rw [takeWhile_append_all (natChars_all_digits n) h1,
      dropWhile_append_all (natChars_all_digits n) h2]
  have hne := natChars_ne_nil n
  match hN : natChars n with
  | [] => exact absurd hN hne
  | d :: ds =>
    simp only
    rw [← hN, ofDigits_natChars]

theorem expectLit_append (lit rest : List Char) :
    expectLit lit (lit ++ rest) = some rest := by
  induction lit with
  | nil => rfl
  | cons p ps ih => simp [expectLit, ih]

theorem comma_stops_digits (t : List Char) :
    (',' :: t).takeWhile isDigitChar = [] ∧ (',' :: t).dropWhile isDigitChar = ',' :: t := by
  rw [List.takeWhile_cons, List.dropWhile_cons]
  norm_num [show isDigitChar ',' = false from by decide]

theorem quote_stops_digits (t : List Char) :
    ('"' :: t).takeWhile isDigitChar = [] ∧ ('"' :: t).dropWhile isDigitChar = '"' :: t := by
  rw [List.takeWhile_cons, List.dropWhile_cons]
  norm_num [show isDigitChar '"' = false from by decide]

/-- C7: persisting a token record and reloading it is the identity — JSON
dump followed by JSON load returns every field unchanged, so in particular
the `access_token` and `refresh_token` strings come back byte for byte. -/
theorem c7_persist_reload_roundtrip (r : StoredRecord) :
    parseStored (dumpStored r) = some r := by
  have hExpAt : litExpAt ++ (natChars r.expires_at ++ litClose) =
      ',' :: ((" \"expires_at\": \"").data ++ (natChars r.expires_at ++ litClose)) := rfl
  have hpe1 : parseNat (natChars r.expires_in ++
      (litExpAt ++ (natChars r.expires_at ++ litClose))) =
      some (r.expires_in, litExpAt ++ (natChars r.expires_at ++ litClose)) := by
    rw [hExpAt]
    exact parseNat_natChars _ _ (comma_stops_digits _).1 (comma_stops_digits _).2
  have hClose : litClose = '"' :: ['\x7d'] := rfl
  have hpe2 : parseNat (natChars r.expires_at ++ litClose) =
      some (r.expires_at, litClose) := by
    rw [hClose]
    exact parseNat_natChars _ _ (quote_stops_digits _).1 (quote_stops_digits _).2
  unfold parseStored dumpStored
  simp only [expectLit_append, scanString_escapeString, hpe1, hpe2,
    show expectLit litClose litClose = some [] from by
      simpa using expectLit_append litClose []]

